import Mathlib

/-!
Verification model of the venus-fastapi dating-app backend.

Shallow embedding of the core logic claimed by the specification:
geo parsing and filtering (`app/core/geo.py`), the match upsert
(`app/api/v1/matches.py`), payment creation and the Daraja webhook
resolution (`app/api/v1/payments.py`), together with proofs of the
specified properties.

Conventions:
* Python floats are modelled as rationals (`ℚ`); the haversine distance,
  which uses transcendental functions, is modelled over `ℝ`.
* Database rows are Lean structures, a table is a `List` of rows, and a
  request handler is a pure function from its inputs and the current
  table state to a response together with the new table state.
* Ambient values (`datetime.now()`, generated UUID primary keys) are
  passed as explicit parameters.
-/

namespace Venus

/-! ## Calendar dates and times -/

/-- A calendar date (`datetime.date`). -/
structure PDate where
  year : Int
  month : Int
  day : Int
deriving DecidableEq, Repr

/-- A timezone-aware UTC datetime (`datetime.datetime`), seconds precision. -/
structure DateTime where
  date : PDate
  hour : Int
  minute : Int
  second : Int
deriving DecidableEq, Repr

/-- Gregorian leap-year test. -/
def isLeap (y : Int) : Bool :=
  (y % 4 == 0 && y % 100 != 0) || y % 400 == 0

/-- Number of days in a Gregorian month. -/
def daysInMonth (y m : Int) : Int :=
  if m == 2 then (if isLeap y then 29 else 28)
  else if m == 4 || m == 6 || m == 9 || m == 11 then 30
  else 31

/-- Month-aware date addition, modelling
`dateutil.relativedelta.relativedelta(months=n)` (an external library
dependency of `app/api/v1/payments.py`): the month index is advanced by
`n` with the year normalised, and the day is clamped to the last valid
day of the resulting month. Time-of-day fields are unchanged. -/
def addMonths (dt : DateTime) (n : Int) : DateTime :=
  let total := dt.date.year * 12 + (dt.date.month - 1) + n
  let y := Int.ediv total 12
  let m := Int.emod total 12 + 1
  let d := min dt.date.day (daysInMonth y m)
  ⟨⟨y, m, d⟩, dt.hour, dt.minute, dt.second⟩

/-! ## Python string primitives

The repository parses coordinate strings with `str.strip`, `str.split`
and the builtin `float`, and webhook timestamps with slicing and `int`.
These are modelled on `List Char`.  The model of `float`/`int` covers
signed decimal literals with optional fraction and exponent; exotic
accepted forms (`inf`, `nan`, digit-group underscores) are not modelled —
for the repository's range-checked coordinate use they can never produce
an accepted value. -/

/-- `str.strip()`: drop whitespace from both ends. -/
def pyStrip (cs : List Char) : List Char :=
  ((cs.dropWhile Char.isWhitespace).reverse.dropWhile Char.isWhitespace).reverse

/-- `str.split(sep)` for a one-character separator: splits into the list
of (possibly empty) chunks between occurrences of `sep`. -/
def splitListOn (sep : Char) : List Char → List (List Char)
  | [] => [[]]
  | c :: cs =>
    let r := splitListOn sep cs
    if c == sep then [] :: r
    else
      match r with
      | [] => [[c]]
      | g :: gs => (c :: g) :: gs

/-- Numeric value of a digit string (most significant first). -/
def digitsToNat (cs : List Char) : Nat :=
  cs.foldl (fun a c => 10 * a + (c.toNat - 48)) 0

/-- All characters are ASCII decimal digits. -/
def allDigits (cs : List Char) : Bool :=
  cs.all Char.isDigit

/-- Parse a nonempty string of decimal digits. -/
def parseNatDigits (cs : List Char) : Option Nat :=
  if cs ≠ [] ∧ allDigits cs then some (digitsToNat cs) else none

/-- Strip one optional leading sign; returns (negative?, rest). -/
def stripSign : List Char → Bool × List Char
  | '+' :: cs => (false, cs)
  | '-' :: cs => (true, cs)
  | cs => (false, cs)

/-- Parse the mantissa of a float literal into its discrete parts:
optional sign, then digits with an optional single decimal point (at
least one digit overall).  Returns (negative?, integer-part value,
fraction-part value, fraction length). -/
def mantissaLex (cs : List Char) : Option (Bool × Nat × Nat × Nat) :=
  let sr := stripSign cs
  match splitListOn '.' sr.2 with
  | [d] => (parseNatDigits d).map (fun n => (sr.1, n, 0, 0))
  | [i, f] =>
    if (i ≠ [] ∨ f ≠ []) ∧ allDigits i = true ∧ allDigits f = true then
      some (sr.1, digitsToNat i, digitsToNat f, f.length)
    else none
  | _ => none

/-- Parse an exponent: optional sign then nonempty digits. -/
def parseExponent (cs : List Char) : Option Int :=
  let sr := stripSign cs
  (parseNatDigits sr.2).map (fun n => if sr.1 then -(n : Int) else (n : Int))

/-- Discrete lexing stage of Python's builtin `float`: a signed decimal
mantissa with optional `e`/`E` exponent.  Returns the mantissa parts and
the exponent, or `none` where `float` raises `ValueError`. -/
def floatLex (cs : List Char) : Option (Bool × Nat × Nat × Nat × Int) :=
  let norm := cs.map (fun c => if c == 'E' then 'e' else c)
  match splitListOn 'e' norm with
  | [m] => (mantissaLex m).map (fun r => (r.1, r.2.1, r.2.2.1, r.2.2.2, 0))
  | [m, e] =>
    match mantissaLex m, parseExponent e with
    | some r, some ev => some (r.1, r.2.1, r.2.2.1, r.2.2.2, ev)
    | _, _ => none
  | _ => none

/-- Integer power of ten over `ℚ`. -/
def qPow10 (e : Int) : ℚ :=
  if 0 ≤ e then (10 : ℚ) ^ e.toNat else 1 / (10 : ℚ) ^ (-e).toNat

/-- Numeric value of a lexed float literal. -/
def floatVal (neg : Bool) (ip fp flen : Nat) (ex : Int) : ℚ :=
  (if neg then -1 else 1) * ((ip : ℚ) + (fp : ℚ) / (10 : ℚ) ^ flen) * qPow10 ex

/-- Model of Python's builtin `float` on a stripped token. -/
def pyFloat (cs : List Char) : Option ℚ :=
  (floatLex cs).map (fun r => floatVal r.1 r.2.1 r.2.2.1 r.2.2.2.1 r.2.2.2.2)

/-- Model of Python's builtin `int` on a string: surrounding whitespace
allowed, optional sign, nonempty digits. -/
def pyInt (cs : List Char) : Option Int :=
  let sr := stripSign (pyStrip cs)
  (parseNatDigits sr.2).map (fun n => if sr.1 then -(n : Int) else (n : Int))

/-- Python slice `s[a:b]` on a character list (clamping, never raising). -/
def sliceChars (cs : List Char) (a b : Nat) : List Char :=
  (cs.drop a).take (b - a)

/-! ## GeoMath (`app/core/geo.py`) -/

/-- `string_to_coordinates_tuple(coord_str)`: parse `"lat,lng"` to a
pair of floats; `None` for a `None`/empty/whitespace argument, a token
count different from two, unparseable tokens, or out-of-range values. -/
def string_to_coordinates_tuple (coord_str : Option String) : Option (ℚ × ℚ) :=
  match coord_str with
  | none => none
  | some s =>
    if pyStrip s.data = [] then none
    else
      match splitListOn ',' (pyStrip s.data) with
      | [p0, p1] =>
        match pyFloat (pyStrip p0), pyFloat (pyStrip p1) with
        | some lat, some lng =>
          if ¬(-90 ≤ lat ∧ lat ≤ 90) ∨ ¬(-180 ≤ lng ∧ lng ≤ 180) then none
          else some (lat, lng)
        | _, _ => none
      | _ => none

/-- `math.radians`. -/
noncomputable def radians (x : ℝ) : ℝ := x * Real.pi / 180

/-- `haversine(coord1, coord2)`: great-circle distance in kilometres,
Earth radius 6371.0 km. -/
noncomputable def haversine (coord1 coord2 : ℝ × ℝ) : ℝ :=
  let R : ℝ := 6371
  let lat1_rad := radians coord1.1
  let lon1_rad := radians coord1.2
  let lat2_rad := radians coord2.1
  let lon2_rad := radians coord2.2
  let dlat := lat2_rad - lat1_rad
  let dlon := lon2_rad - lon1_rad
  let a := Real.sin (dlat / 2) ^ 2 +
    Real.cos lat1_rad * Real.cos lat2_rad * Real.sin (dlon / 2) ^ 2
  let c := 2 * Real.arcsin (Real.sqrt a)
  R * c

/-- Embed a parsed rational coordinate pair into `ℝ × ℝ`. -/
noncomputable def qcoord (p : ℚ × ℚ) : ℝ × ℝ := ((p.1 : ℝ), (p.2 : ℝ))

/-- A coordinate pair within latitude/longitude bounds. -/
def validCoord (p : ℝ × ℝ) : Prop :=
  -90 ≤ p.1 ∧ p.1 ≤ 90 ∧ -180 ≤ p.2 ∧ p.2 ≤ 180

/-- `calc_profile_age`: calendar-year difference, decremented when
today's (month, day) lexicographically precedes the birthday's, and `0`
for a missing date of birth.  `today` (`date.today()`) is explicit. -/
def calc_profile_age (date_of_birth : Option PDate) (today : PDate) : Int :=
  match date_of_birth with
  | none => 0
  | some dob =>
    let age := today.year - dob.year
    if today.month < dob.month ∨ (today.month = dob.month ∧ today.day < dob.day) then
      age - 1
    else age

/-! ## Data model rows -/

/-- The `preferences` JSON object stored on a `Profile`; each key may be
absent. -/
structure Preferences where
  min_age : Option Int
  max_age : Option Int
  distance : Option ℚ
deriving DecidableEq, Repr

/-- A `Profile` row (`app/models/profile.py`), restricted to the fields
the core logic reads. -/
structure ProfileRec where
  profile_id : Nat
  user_id : Nat
  phone_number : String
  gender : String
  date_of_birth : Option PDate
  bio : String
  online : Bool
  current_coordinates : Option String
  preferences : Option Preferences
  active : Bool
deriving DecidableEq, Repr

/-- A `User` row (`app/models/user.py`) with its optional joined
profile, restricted to the fields the core logic reads. -/
structure UserRec where
  user_id : Nat
  first_name : String
  last_name : String
  avatar_url : Option String
  fcm_token : Option String
  active : Bool
  profile : Option ProfileRec
deriving DecidableEq, Repr

/-! ## PreferenceFilter (`filter_out_profiles_outside_range`) -/

/-- The default preference values substituted for an absent or empty
preference object (`{"min_age": 18, "max_age": 99, "distance": 50.0}`). -/
def defaultPreferences : Preferences :=
  { min_age := some 18, max_age := some 99, distance := some 50 }

/-- `preferences.get("min_age", 18)` after defaulting an absent object. -/
def prefMinAge (preferences : Option Preferences) : Int :=
  ((preferences.getD defaultPreferences).min_age).getD 18

/-- `preferences.get("max_age", 99)` after defaulting an absent object. -/
def prefMaxAge (preferences : Option Preferences) : Int :=
  ((preferences.getD defaultPreferences).max_age).getD 99

/-- `preferences.get("distance", 50.0)` after defaulting an absent object. -/
def prefRadius (preferences : Option Preferences) : ℚ :=
  ((preferences.getD defaultPreferences).distance).getD 50

open Classical in
/-- `filter_out_profiles_outside_range(current_profile, map_profiles,
preferences)`: the pure filtering function of the map endpoint.  It
defaults absent preferences, returns `[]` when the requester's own
coordinates do not parse, and keeps every pool member with a profile
whose coordinates parse, whose haversine distance from the requester is
at most the preference radius, and whose age lies in the preference
window.  `today` (used by `calc_profile_age`) is explicit. -/
noncomputable def filter_out_profiles_outside_range
    (current_profile : ProfileRec) (map_profiles : List UserRec)
    (preferences : Option Preferences) (today : PDate) : List UserRec :=
  let min_age := prefMinAge preferences
  let max_age := prefMaxAge preferences
  let radius := prefRadius preferences
  match string_to_coordinates_tuple current_profile.current_coordinates with
  | none => []
  | some profile_coords =>
    map_profiles.filter fun user =>
      match user.profile with
      | none => false
      | some up =>
        if up.current_coordinates = none ∨ up.current_coordinates = some "" then false
        else
          match string_to_coordinates_tuple up.current_coordinates with
          | none => false
          | some user_coords =>
            if haversine (qcoord profile_coords) (qcoord user_coords) ≤ (radius : ℝ) ∧
                min_age ≤ calc_profile_age up.date_of_birth today ∧
                calc_profile_age up.date_of_birth today ≤ max_age
            then true else false

/-- Modelled from the spec: the seven map-filter conditions — opposite
gender (exact string inequality), candidate online, candidate is not
the requester, candidate profile and owning user active, parseable
coordinates on both sides, haversine distance at most the preference
radius, and age within the preference window. -/
def specSevenConditions (requester : ProfileRec) (preferences : Option Preferences)
    (today : PDate) (user : UserRec) : Prop :=
  ∃ up rc uc,
    user.profile = some up ∧
    up.gender ≠ requester.gender ∧
    up.online = true ∧
    user.user_id ≠ requester.user_id ∧
    up.active = true ∧
    user.active = true ∧
    string_to_coordinates_tuple requester.current_coordinates = some rc ∧
    string_to_coordinates_tuple up.current_coordinates = some uc ∧
    haversine (qcoord rc) (qcoord uc) ≤ (prefRadius preferences : ℝ) ∧
    prefMinAge preferences ≤ calc_profile_age up.date_of_birth today ∧
    calc_profile_age up.date_of_birth today ≤ prefMaxAge preferences

/-! ## MatchStore (`app/api/v1/matches.py`) -/

/-- A `Match` row (`app/models/match.py`). -/
structure MatchRow where
  match_id : Nat
  my_id : Nat
  partner_id : Nat
  thread_id : Nat
  last_message : Option String
  last_message_date : Option DateTime
  sent_by : Option Nat
  created_by : String
  updated_by : String
  active : Bool
deriving DecidableEq, Repr

/-- The match upsert request body (`MatchCreateRequest`). -/
structure MatchCreateRequest where
  my_id : Nat
  partner_id : Nat
  thread_id : Nat
  last_message : Option String
  last_message_date : Option DateTime
  sent_by : Option Nat
deriving DecidableEq, Repr

/-- The natural-key lookup predicate of the upsert: exact equality of
`(my_id, partner_id, thread_id)`. -/
def matchesTriple (match_data : MatchCreateRequest) (m : MatchRow) : Bool :=
  m.my_id == match_data.my_id && m.partner_id == match_data.partner_id &&
    m.thread_id == match_data.thread_id

/-- Replace the first element satisfying `p` (the row an ORM `.first()`
lookup returned and then mutated in place); other rows are untouched. -/
def replaceFirst {α : Type} (p : α → Bool) (r : α) : List α → List α
  | [] => []
  | x :: xs => if p x then r :: xs else x :: replaceFirst p r xs

/-- Outcome of the match upsert endpoint. -/
inductive MatchOutcome where
  | forbidden
  | updated (m : MatchRow)
  | created (m : MatchRow)
deriving DecidableEq, Repr

/-- The in-place overwrite applied to a found match row: the three
optional request fields and the update attribution are assigned; all
other fields of the row are untouched. -/
def updatedMatchRow (existing_match : MatchRow) (match_data : MatchCreateRequest)
    (current_user_id : Nat) : MatchRow :=
  { existing_match with
    last_message := match_data.last_message,
    last_message_date := match_data.last_message_date,
    sent_by := match_data.sent_by,
    updated_by := toString current_user_id }

/-- `create_or_update_match`: authorization check, then find-by-natural-
key; on a hit the optional fields and the update attribution are
overwritten in place, on a miss a new row is created with a fresh id.
`fresh_id` stands for the generated UUID primary key; background
notification dispatch is external I/O and not part of the persisted
state. -/
def create_or_update_match (match_data : MatchCreateRequest) (current_user_id : Nat)
    (db : List MatchRow) (fresh_id : Nat) : MatchOutcome × List MatchRow :=
  if match_data.my_id ≠ current_user_id then (.forbidden, db)
  else
    match db.find? (matchesTriple match_data) with
    | some existing_match =>
      let updated_match := updatedMatchRow existing_match match_data current_user_id
      (.updated updated_match, replaceFirst (matchesTriple match_data) updated_match db)
    | none =>
      let db_match : MatchRow := {
        match_id := fresh_id,
        my_id := match_data.my_id,
        partner_id := match_data.partner_id,
        thread_id := match_data.thread_id,
        last_message := match_data.last_message,
        last_message_date := match_data.last_message_date,
        sent_by := match_data.sent_by,
        created_by := toString current_user_id,
        updated_by := toString current_user_id,
        active := true }
      (.created db_match, db ++ [db_match])

/-! ## PaymentLifecycle (`app/api/v1/payments.py`) -/

/-- A JSON scalar occurring in webhook metadata values. -/
inductive JVal where
  | num (q : ℚ)
  | str (s : String)
deriving DecidableEq, Repr

/-- One `{"Name": ..., "Value": ...}` entry of `CallbackMetadata.Item`;
either key may be absent. -/
structure MetaItem where
  name : Option String
  value : Option JVal
deriving DecidableEq, Repr

/-- The `stkCallback` object of a Daraja webhook event; every field may
be absent. -/
structure StkCallback where
  resultCode : Option Int
  resultDesc : Option String
  checkoutRequestID : Option String
  callbackMetadataItems : Option (List MetaItem)
deriving DecidableEq, Repr

/-- A webhook event body.  `stk = none` covers both a structurally
missing `Body` wrapper and a missing `stkCallback` key — in the source
both degrade to an empty dict via `.get(..., {})`. -/
structure CallbackData where
  stk : Option StkCallback
deriving DecidableEq, Repr

/-- The empty `stkCallback` dict. -/
def emptyStk : StkCallback := ⟨none, none, none, none⟩

/-- `callback_data.get("Body", {}).get("stkCallback", {})`. -/
def CallbackData.stkD (cb : CallbackData) : StkCallback := cb.stk.getD emptyStk

/-- `stk_callback.get("CallbackMetadata", {}).get("Item", [])`. -/
def CallbackData.metaItems (cb : CallbackData) : List MetaItem :=
  cb.stkD.callbackMetadataItems.getD []

/-- A `PaymentPlan` row (`app/models/payment_plan.py`). -/
structure PaymentPlanRow where
  plan_id : Nat
  plan : String
  amount : ℚ
  months : Int
  active : Bool
deriving DecidableEq, Repr

/-- A `Payment` row (`app/models/payment.py`).  The opaque JSON request
and response blobs are carried as strings. -/
structure PaymentRow where
  payment_id : Nat
  user_id : Nat
  payment_ref : Option String
  payment_date : DateTime
  valid_until : DateTime
  amount : ℚ
  plan_id : Nat
  mpesa_transaction_id : Option String
  transaction_request : Option String
  transaction_response : Option String
  transaction_callback : Option CallbackData
  transaction_status : Option String
  date_completed : Option DateTime
  created_by : String
  updated_by : String
  active : Bool
deriving DecidableEq, Repr

/-- Python truthiness of a metadata `Value`. -/
def jvTruthy : Option JVal → Bool
  | none => false
  | some (.num q) => decide (q ≠ 0)
  | some (.str s) => decide (s ≠ "")

/-- `float(value)` on a metadata value; `none` where `float` raises. -/
def jvFloat : JVal → Option ℚ
  | .num q => some q
  | .str s => pyFloat (pyStrip s.data)

/-- `str(value)` on a metadata value. -/
def jvStr : JVal → String
  | .str s => s
  | .num q => toString q

/-- `daraja_timestamp_to_datetime(timestamp_str)`
(`app/core/daraja_helper.py`): slice a `YYYYMMDDHHMMSS` string into six
integers and build a UTC datetime; on any parse or range failure return
the current time (`now`, explicit here). -/
def daraja_timestamp_to_datetime (timestamp_str : String) (now : DateTime) : DateTime :=
  let cs := timestamp_str.data
  match pyInt (sliceChars cs 0 4), pyInt (sliceChars cs 4 6), pyInt (sliceChars cs 6 8),
      pyInt (sliceChars cs 8 10), pyInt (sliceChars cs 10 12), pyInt (sliceChars cs 12 14) with
  | some y, some mo, some d, some h, some mi, some s =>
    if 1 ≤ y ∧ y ≤ 9999 ∧ 1 ≤ mo ∧ mo ≤ 12 ∧ 1 ≤ d ∧ d ≤ daysInMonth y mo ∧
        0 ≤ h ∧ h ≤ 23 ∧ 0 ≤ mi ∧ mi ≤ 59 ∧ 0 ≤ s ∧ s ≤ 59 then
      ⟨⟨y, mo, d⟩, h, mi, s⟩
    else now
  | _, _, _, _, _, _ => now

/-- Accumulator of the callback-metadata extraction loop, with its
initial values `amount = 0`, `mpesa_code = ""`, `transaction_date =
None`. -/
structure MetaAcc where
  amount : ℚ
  mpesa_code : String
  transaction_date : Option DateTime
deriving DecidableEq, Repr

/-- One iteration of the metadata loop.  `none` models an uncaught
`ValueError` from `float` (non-numeric truthy `Amount`), which aborts
processing. -/
def processItem (now : DateTime) (acc : MetaAcc) (item : MetaItem) : Option MetaAcc :=
  if item.name == some "Amount" then
    if jvTruthy item.value then
      match item.value with
      | some v => (jvFloat v).map (fun q => { acc with amount := q })
      | none => none
    else some { acc with amount := 0 }
  else if item.name == some "MpesaReceiptNumber" then
    some { acc with mpesa_code :=
      (if jvTruthy item.value then (item.value.map jvStr).getD "" else "") }
  else if item.name == some "TransactionDate" then
    if jvTruthy item.value then
      some { acc with
        transaction_date := some (daraja_timestamp_to_datetime ((item.value.map jvStr).getD "") now) }
    else some acc
  else some acc

/-- The callback-metadata extraction loop. -/
def extractMeta (now : DateTime) : List MetaItem → MetaAcc → Option MetaAcc
  | [], acc => some acc
  | item :: rest, acc =>
    match processItem now acc item with
    | none => none
    | some acc' => extractMeta now rest acc'

/-- Lookup predicate for the webhook's payment correlation:
`Payment.mpesa_transaction_id == checkout_request_id`. -/
def mpesaIdEq (checkout_request_id : String) (p : PaymentRow) : Bool :=
  p.mpesa_transaction_id == some checkout_request_id

/-- Lookup predicate for the payment's plan (no `active` filter). -/
def planIdEq (plan_id : Nat) (pl : PaymentPlanRow) : Bool :=
  pl.plan_id == plan_id

/-- The amount-vs-plan status resolution: settled amount at least the
plan price sets `SUCCESSFUL`; a smaller settled amount sets
`PARTIALLY_PAID` and overwrites the stored amount; a missing plan leaves
both untouched. -/
def resolveStatus (plan_lookup : Option PaymentPlanRow) (amount : ℚ)
    (p : PaymentRow) : PaymentRow :=
  match plan_lookup with
  | some payment_plan =>
    if amount ≥ payment_plan.amount then
      { p with transaction_status := some "SUCCESSFUL" }
    else
      { p with transaction_status := some "PARTIALLY_PAID", amount := amount }
  | none => p

/-- Whether the post-commit notification block attempts a send: the
payment's user exists and carries an FCM token (failures inside the send
are swallowed). -/
def notifyFlag (users : List UserRec) (payment_user_id : Nat) : Bool :=
  match users.find? (fun u => u.user_id == payment_user_id) with
  | some u => u.fcm_token.isSome
  | none => false

/-- Responses of the webhook endpoint. -/
inductive CallbackResponse where
  | received (result_code : Option Int)
  | badRequest (message : String)
  | notFound (message : String)
  | success (payment_id : Nat)
  | internalError
deriving DecidableEq, Repr

/-- The successful-resolution mutation of the matched payment: the raw
event, the receipt code and the settlement timestamp are persisted, the
status (and on partial payment the amount) is resolved against the
plan, and the update attribution is set to the row's creator. -/
def callbackUpdatedPayment (callback_data : CallbackData) (acc : MetaAcc)
    (plan_lookup : Option PaymentPlanRow) (payment : PaymentRow) : PaymentRow :=
  let p1 := { payment with
    transaction_callback := some callback_data,
    payment_ref := some acc.mpesa_code,
    date_completed := acc.transaction_date }
  let p2 := resolveStatus plan_lookup acc.amount p1
  { p2 with updated_by := p2.created_by }

/-- `daraja_callback(callback_data)`: the webhook handler as a pure
function of the event, the payment and plan tables, the user table (for
the notification), and the current time.  Returns the response, the new
payment table, and whether a notification send was attempted. -/
def daraja_callback (callback_data : CallbackData) (payments : List PaymentRow)
    (plans : List PaymentPlanRow) (users : List UserRec) (now : DateTime) :
    CallbackResponse × List PaymentRow × Bool :=
  let stk := callback_data.stkD
  if stk.resultCode ≠ some 0 then
    (.received stk.resultCode, payments, false)
  else
    match stk.checkoutRequestID with
    | none => (.badRequest "CheckoutRequestID not found", payments, false)
    | some checkout_request_id =>
      if checkout_request_id = "" then
        (.badRequest "CheckoutRequestID not found", payments, false)
      else
        match payments.find? (mpesaIdEq checkout_request_id) with
        | none => (.notFound "Payment not found", payments, false)
        | some payment =>
          match extractMeta now callback_data.metaItems ⟨0, "", none⟩ with
          | none => (.internalError, payments, false)
          | some acc =>
            let p3 := callbackUpdatedPayment callback_data acc
              (plans.find? (planIdEq payment.plan_id)) payment
            (.success payment.payment_id,
             replaceFirst (mpesaIdEq checkout_request_id) p3 payments,
             notifyFlag users payment.user_id)

/-- The payment creation request body (`PaymentCreateRequest`). -/
structure PaymentCreateRequest where
  amount : ℚ
  plan_id : Nat
  payment_ref : Option String
  phone_number : Option String
  mpesa_transaction_id : Option String
  transaction_request : Option String
  transaction_response : Option String
deriving DecidableEq, Repr

/-- Outcome of payment creation. -/
inductive CreatePaymentResult where
  | invalidPlan
  | created (p : PaymentRow)
deriving DecidableEq, Repr

/-- The payment row inserted by `create_payment`: `payment_date` is the
current UTC time and `valid_until` is derived from it by month-aware
addition of the plan's duration, once, at creation. -/
def createdPaymentRow (payment_data : PaymentCreateRequest) (current_user_id : Nat)
    (plan : PaymentPlanRow) (now : DateTime) (fresh_id : Nat) : PaymentRow :=
  let payment_date := now
  let valid_until := addMonths payment_date plan.months
  { payment_id := fresh_id,
    user_id := current_user_id,
    payment_ref := payment_data.payment_ref,
    payment_date := payment_date,
    valid_until := valid_until,
    amount := payment_data.amount,
    plan_id := payment_data.plan_id,
    mpesa_transaction_id := payment_data.mpesa_transaction_id,
    transaction_request := payment_data.transaction_request,
    transaction_response := payment_data.transaction_response,
    transaction_callback := none,
    transaction_status := none,
    date_completed := none,
    created_by := toString current_user_id,
    updated_by := toString current_user_id,
    active := true }

/-- `create_payment`: validate that the plan exists and is active, then
insert the row built by `createdPaymentRow`.  `fresh_id` stands for the
generated UUID primary key. -/
def create_payment (payment_data : PaymentCreateRequest) (current_user_id : Nat)
    (plans : List PaymentPlanRow) (now : DateTime) (fresh_id : Nat)
    (payments : List PaymentRow) : CreatePaymentResult × List PaymentRow :=
  match plans.find? (fun pl => pl.plan_id == payment_data.plan_id && pl.active) with
  | none => (.invalidPlan, payments)
  | some plan =>
    let db_payment := createdPaymentRow payment_data current_user_id plan now fresh_id
    (.created db_payment, payments ++ [db_payment])

/-! ## Coordinate parsing lemmas -/

lemma string_to_coordinates_tuple_of_split_length (s : String)
    (h : (splitListOn ',' (pyStrip s.data)).length ≠ 2) :
    string_to_coordinates_tuple (some s) = none := by
  simp only [string_to_coordinates_tuple]
  split
  · rfl
  · split
    · next p0 p1 heq => exact absurd (by rw [heq]; rfl) h
    · rfl

lemma string_to_coordinates_tuple_of_strip_empty (s : String)
    (h : pyStrip s.data = []) :
    string_to_coordinates_tuple (some s) = none := by
  simp only [string_to_coordinates_tuple, h, if_pos]

lemma string_to_coordinates_tuple_of_bad_token (s : String) (p0 p1 : List Char)
    (hsplit : splitListOn ',' (pyStrip s.data) = [p0, p1])
    (h : pyFloat (pyStrip p0) = none ∨ pyFloat (pyStrip p1) = none) :
    string_to_coordinates_tuple (some s) = none := by
  have hne : pyStrip s.data ≠ [] := by
    intro hempty
    rw [hempty] at hsplit
    simp [splitListOn] at hsplit
  simp only [string_to_coordinates_tuple, if_neg hne, hsplit]
  rcases h with h | h
  · rw [h]
  · rw [h]
    split <;> simp_all

lemma string_to_coordinates_tuple_range (s : String) (lat lng : ℚ)
    (h : string_to_coordinates_tuple (some s) = some (lat, lng)) :
    -90 ≤ lat ∧ lat ≤ 90 ∧ -180 ≤ lng ∧ lng ≤ 180 := by
  simp only [string_to_coordinates_tuple] at h
  split at h
  · exact absurd h (by simp)
  · split at h
    · split at h
      · split at h
        · exact absurd h (by simp)
        · next hcond =>
          push_neg at hcond
          simp only [Option.some.injEq, Prod.mk.injEq] at h
          obtain ⟨hx, hy⟩ := h
          subst hx; subst hy
          obtain ⟨⟨h1, h2⟩, h3, h4⟩ := hcond
          exact ⟨h1, h2, h3, h4⟩
      · exact absurd h (by simp)
    · exact absurd h (by simp)

/-- C7: `string_to_coordinates_tuple` totally returns `none` (never an
exception) on empty or whitespace-only input, on a comma token count
different from two, on a non-numeric token, and on out-of-range values
(every accepted pair is within latitude/longitude bounds); it rejects
`""`, `"91,0"`, `"0,181"`, `"1,2,3"`, `"a,b"` and accepts
`"-1.2921,36.8219"` as `(-1.2921, 36.8219)`. -/
theorem string_to_coordinates_tuple_spec :
    string_to_coordinates_tuple (some "") = none ∧
    string_to_coordinates_tuple (some "91,0") = none ∧
    string_to_coordinates_tuple (some "0,181") = none ∧
    string_to_coordinates_tuple (some "1,2,3") = none ∧
    string_to_coordinates_tuple (some "a,b") = none ∧
    string_to_coordinates_tuple (some "-1.2921,36.8219")
      = some (-(12921 / 10000 : ℚ), (368219 / 10000 : ℚ)) ∧
    (∀ s : String, pyStrip s.data = [] → string_to_coordinates_tuple (some s) = none) ∧
    (∀ s : String, (splitListOn ',' (pyStrip s.data)).length ≠ 2 →
      string_to_coordinates_tuple (some s) = none) ∧
    (∀ (s : String) (p0 p1 : List Char), splitListOn ',' (pyStrip s.data) = [p0, p1] →
      pyFloat (pyStrip p0) = none ∨ pyFloat (pyStrip p1) = none →
      string_to_coordinates_tuple (some s) = none) ∧
    (∀ (s : String) (lat lng : ℚ), string_to_coordinates_tuple (some s) = some (lat, lng) →
      -90 ≤ lat ∧ lat ≤ 90 ∧ -180 ≤ lng ∧ lng ≤ 180) := by
  refine ⟨?_, ?_, ?_, ?_, ?_, ?_,
    string_to_coordinates_tuple_of_strip_empty,
    string_to_coordinates_tuple_of_split_length,
    string_to_coordinates_tuple_of_bad_token,
    string_to_coordinates_tuple_range⟩
  · simp [string_to_coordinates_tuple, pyStrip]
  · have h1 : pyStrip "91,0".data = ['9', '1', ',', '0'] := by decide
    have h2 : splitListOn ',' ['9', '1', ',', '0'] = [['9', '1'], ['0']] := by decide
    have h3 : pyFloat (pyStrip ['9', '1']) = some (floatVal false 91 0 0 0) := by
      have hl : floatLex (pyStrip ['9', '1']) = some (false, 91, 0, 0, 0) := by decide
      simp [pyFloat, hl]
    have h4 : pyFloat (pyStrip ['0']) = some (floatVal false 0 0 0 0) := by
      have hl : floatLex (pyStrip ['0']) = some (false, 0, 0, 0, 0) := by decide
      simp [pyFloat, hl]
    have hv : floatVal false 91 0 0 0 = 91 := by norm_num [floatVal, qPow10]
    have hv0 : floatVal false 0 0 0 0 = 0 := by norm_num [floatVal, qPow10]
    simp only [string_to_coordinates_tuple, h1, h2, h3, h4, hv, hv0]
    norm_num
  · have h1 : pyStrip "0,181".data = ['0', ',', '1', '8', '1'] := by decide
    have h2 : splitListOn ',' ['0', ',', '1', '8', '1'] = [['0'], ['1', '8', '1']] := by decide
    have h3 : pyFloat (pyStrip ['0']) = some (floatVal false 0 0 0 0) := by
      have hl : floatLex (pyStrip ['0']) = some (false, 0, 0, 0, 0) := by decide
      simp [pyFloat, hl]
    have h4 : pyFloat (pyStrip ['1', '8', '1']) = some (floatVal false 181 0 0 0) := by
      have hl : floatLex (pyStrip ['1', '8', '1']) = some (false, 181, 0, 0, 0) := by decide
      simp [pyFloat, hl]
    have hv : floatVal false 181 0 0 0 = 181 := by norm_num [floatVal, qPow10]
    have hv0 : floatVal false 0 0 0 0 = 0 := by norm_num [floatVal, qPow10]
    simp only [string_to_coordinates_tuple, h1, h2, h3, h4, hv, hv0]
    norm_num
  · exact string_to_coordinates_tuple_of_split_length "1,2,3" (by decide)
  · exact string_to_coordinates_tuple_of_bad_token "a,b" ['a'] ['b'] (by decide)
      (Or.inl (by decide))
  · have h1 : splitListOn ',' (pyStrip "-1.2921,36.8219".data)
        = [['-', '1', '.', '2', '9', '2', '1'], ['3', '6', '.', '8', '2', '1', '9']] := by decide
    have h3 : pyFloat (pyStrip ['-', '1', '.', '2', '9', '2', '1'])
        = some (floatVal true 1 2921 4 0) := by
      have hl : floatLex (pyStrip ['-', '1', '.', '2', '9', '2', '1'])
          = some (true, 1, 2921, 4, 0) := by decide
      simp [pyFloat, hl]
    have h4 : pyFloat (pyStrip ['3', '6', '.', '8', '2', '1', '9'])
        = some (floatVal false 36 8219 4 0) := by
      have hl : floatLex (pyStrip ['3', '6', '.', '8', '2', '1', '9'])
          = some (false, 36, 8219, 4, 0) := by decide
      simp [pyFloat, hl]
    have hv : floatVal true 1 2921 4 0 = -(12921 / 10000 : ℚ) := by
      norm_num [floatVal, qPow10]
    have hv2 : floatVal false 36 8219 4 0 = (368219 / 10000 : ℚ) := by
      norm_num [floatVal, qPow10]
    have hne : pyStrip "-1.2921,36.8219".data ≠ [] := by decide
    simp only [string_to_coordinates_tuple, h1, h3, h4, hv, hv2, if_neg hne]
    norm_num

/-- Witness for C7: the universal rejection clauses evaluated at a
concrete input. -/
theorem string_to_coordinates_tuple_spec_witness :
    (splitListOn ',' (pyStrip "1".data)).length ≠ 2 ∧
    string_to_coordinates_tuple (some "1") = none :=
  ⟨by decide, string_to_coordinates_tuple_spec.2.2.2.2.2.2.2.1 "1" (by decide)⟩

/-! ## Haversine lemmas -/

lemma haversine_unfold (c1 c2 : ℝ × ℝ) :
    haversine c1 c2 = 6371 * (2 * Real.arcsin (Real.sqrt
      (Real.sin ((radians c2.1 - radians c1.1) / 2) ^ 2 +
       Real.cos (radians c1.1) * Real.cos (radians c2.1) *
         Real.sin ((radians c2.2 - radians c1.2) / 2) ^ 2))) := rfl

lemma haversine_self_eq_zero (p : ℝ × ℝ) : haversine p p = 0 := by
  rw [haversine_unfold]
  simp

lemma haversine_symmetric (a b : ℝ × ℝ) : haversine a b = haversine b a := by
  have hs : ∀ x y : ℝ, Real.sin ((x - y) / 2) ^ 2 = Real.sin ((y - x) / 2) ^ 2 := by
    intro x y
    rw [show (x - y) / 2 = -((y - x) / 2) by ring, Real.sin_neg, neg_sq]
  rw [haversine_unfold, haversine_unfold,
    hs (radians a.1) (radians b.1), hs (radians a.2) (radians b.2),
    mul_comm (Real.cos (radians b.1)) (Real.cos (radians a.1))]

/-- C8: for valid coordinate pairs the haversine distance is zero at
identical points and symmetric in its arguments. -/
theorem haversine_zero_self_and_symm (a b : ℝ × ℝ)
    (ha : validCoord a) (hb : validCoord b) :
    haversine a a = 0 ∧ haversine a b = haversine b a :=
  ⟨haversine_self_eq_zero a, haversine_symmetric a b⟩

/-- Witness for C8 at Nairobi-like and origin coordinates. -/
theorem haversine_zero_self_and_symm_witness :
    haversine (0, 0) (0, 0) = 0 ∧ haversine (0, 0) (1, 1) = haversine (1, 1) (0, 0) :=
  haversine_zero_self_and_symm (0, 0) (1, 1)
    (by constructor <;> norm_num [validCoord])
    (by constructor <;> norm_num [validCoord])

/-! ## PreferenceFilter: C1 -/

lemma stct_empty_string : string_to_coordinates_tuple (some "") = none := by
  simp [string_to_coordinates_tuple, pyStrip]

lemma stct_zero_zero : string_to_coordinates_tuple (some "0,0") = some (0, 0) := by
  have h1 : pyStrip "0,0".data = ['0', ',', '0'] := by decide
  have h2 : splitListOn ',' ['0', ',', '0'] = [['0'], ['0']] := by decide
  have h3 : pyFloat (pyStrip ['0']) = some (floatVal false 0 0 0 0) := by
    have hl : floatLex (pyStrip ['0']) = some (false, 0, 0, 0, 0) := by decide
    simp [pyFloat, hl]
  have hv : floatVal false 0 0 0 0 = 0 := by norm_num [floatVal, qPow10]
  have hne : pyStrip "0,0".data ≠ [] := by decide
  simp only [string_to_coordinates_tuple]
  rw [if_neg hne]
  simp only [h1, h2, h3, hv]
  norm_num

lemma qcoord_zero : qcoord ((0 : ℚ), (0 : ℚ)) = ((0 : ℝ), (0 : ℝ)) := by
  simp [qcoord]

/-- Requester profile of the C1 counterexample: male, at `"0,0"`. -/
def cexRequester : ProfileRec :=
  { profile_id := 1, user_id := 1, phone_number := "0700000001", gender := "MALE",
    date_of_birth := some ⟨1990, 1, 1⟩, bio := "", online := true,
    current_coordinates := some "0,0", preferences := none, active := true }

/-- Candidate profile of the C1 counterexample: same gender as the
requester, offline, inactive, owned by the requester itself. -/
def cexCandidateProfile : ProfileRec :=
  { profile_id := 1, user_id := 1, phone_number := "0700000001", gender := "MALE",
    date_of_birth := some ⟨2000, 1, 1⟩, bio := "", online := false,
    current_coordinates := some "0,0", preferences := none, active := false }

/-- Candidate user of the C1 counterexample: inactive, and the requester
itself. -/
def cexCandidate : UserRec :=
  { user_id := 1, first_name := "A", last_name := "B", avatar_url := none,
    fcm_token := none, active := false, profile := some cexCandidateProfile }

/-- Fixed current date for the C1 counterexample. -/
def cexToday : PDate := ⟨2024, 6, 1⟩

/-- C1 counterexample: the pure filter keeps a candidate that violates
the gender, online, self-exclusion and active conditions (1–4), so its
output is not the subset satisfying all seven conditions — those
conditions are only applied upstream by the endpoint's database query. -/
theorem filter_out_profiles_outside_range_cex :
    filter_out_profiles_outside_range cexRequester [cexCandidate] none cexToday
      = [cexCandidate] ∧
    ¬ specSevenConditions cexRequester none cexToday cexCandidate ∧
    ¬ (∀ u ∈ filter_out_profiles_outside_range cexRequester [cexCandidate] none cexToday,
        specSevenConditions cexRequester none cexToday u) := by
  have hfil : filter_out_profiles_outside_range cexRequester [cexCandidate] none cexToday
      = [cexCandidate] := by
    unfold filter_out_profiles_outside_range
    have hpc : string_to_coordinates_tuple cexRequester.current_coordinates
        = some (0, 0) := stct_zero_zero
    rw [hpc]
    have hup : cexCandidate.profile = some cexCandidateProfile := rfl
    have hcc : cexCandidateProfile.current_coordinates = some "0,0" := rfl
    have hP : haversine (qcoord (0, 0)) (qcoord (0, 0)) ≤ ((prefRadius none : ℚ) : ℝ) ∧
        prefMinAge none ≤ calc_profile_age cexCandidateProfile.date_of_birth cexToday ∧
        calc_profile_age cexCandidateProfile.date_of_birth cexToday ≤ prefMaxAge none := by
      refine ⟨?_, by decide, by decide⟩
      rw [qcoord_zero, haversine_self_eq_zero]
      norm_num [prefRadius, defaultPreferences]
    simp only [List.filter, hup, hcc, stct_zero_zero]
    rw [if_neg (by simp), if_pos hP]
  have hnospec : ¬ specSevenConditions cexRequester none cexToday cexCandidate := by
    rintro ⟨up, rc, uc, hup, hg, -⟩
    have hupe : up = cexCandidateProfile := by
      simpa [cexCandidate] using hup.symm
    subst hupe
    exact hg rfl
  exact ⟨hfil, hnospec, fun hall => hnospec
    (hall cexCandidate (by rw [hfil]; exact List.mem_singleton_self _))⟩

/-- C1 (amended): the pure filtering function returns exactly the pool
members passing the geometric and age conditions (5–7): a member is kept
iff the requester's coordinates parse, the member has a profile whose
coordinates parse, the haversine distance is at most the preference
radius, and the age lies within the preference window.  The gender,
online, self-exclusion and active conditions (1–4) are not applied by
this function; the endpoint applies them in its upstream database
query. -/
theorem filter_out_profiles_outside_range_mem (current_profile : ProfileRec)
    (map_profiles : List UserRec) (preferences : Option Preferences)
    (today : PDate) (user : UserRec) :
    user ∈ filter_out_profiles_outside_range current_profile map_profiles preferences today ↔
      user ∈ map_profiles ∧ ∃ profile_coords up user_coords,
        string_to_coordinates_tuple current_profile.current_coordinates = some profile_coords ∧
        user.profile = some up ∧
        string_to_coordinates_tuple up.current_coordinates = some user_coords ∧
        haversine (qcoord profile_coords) (qcoord user_coords)
          ≤ ((prefRadius preferences : ℚ) : ℝ) ∧
        prefMinAge preferences ≤ calc_profile_age up.date_of_birth today ∧
        calc_profile_age up.date_of_birth today ≤ prefMaxAge preferences := by
  unfold filter_out_profiles_outside_range
  cases hpc : string_to_coordinates_tuple current_profile.current_coordinates with
  | none => simp
  | some profile_coords =>
    rw [List.mem_filter]
    constructor
    · rintro ⟨hmem, hpred⟩
      refine ⟨hmem, ?_⟩
      cases hup : user.profile with
      | none => simp [hup] at hpred
      | some up =>
        simp only [hup] at hpred
        by_cases hcc : up.current_coordinates = none ∨ up.current_coordinates = some ""
        · rw [if_pos hcc] at hpred; exact absurd hpred (by simp)
        · rw [if_neg hcc] at hpred
          cases huc : string_to_coordinates_tuple up.current_coordinates with
          | none => simp [huc] at hpred
          | some user_coords =>
            simp only [huc] at hpred
            by_cases hP : haversine (qcoord profile_coords) (qcoord user_coords)
                ≤ ((prefRadius preferences : ℚ) : ℝ) ∧
                prefMinAge preferences ≤ calc_profile_age up.date_of_birth today ∧
                calc_profile_age up.date_of_birth today ≤ prefMaxAge preferences
            · exact ⟨profile_coords, up, user_coords, rfl, rfl, huc, hP.1, hP.2.1, hP.2.2⟩
            · rw [if_neg hP] at hpred; exact absurd hpred (by simp)
    · rintro ⟨hmem, pc, up, uc, hpc', hup, huc, hdist, hmin, hmax⟩
      obtain rfl : pc = profile_coords := (Option.some.inj hpc').symm
      refine ⟨hmem, ?_⟩
      have hccne : ¬(up.current_coordinates = none ∨ up.current_coordinates = some "") := by
        rintro (hn | he)
        · rw [hn] at huc; exact absurd huc (by simp [string_to_coordinates_tuple])
        · rw [he, stct_empty_string] at huc; exact absurd huc (by simp)
      simp only [hup, if_neg hccne, huc]
      exact if_pos ⟨hdist, hmin, hmax⟩

/-! ## replaceFirst lemmas -/

lemma replaceFirst_length {α : Type} (p : α → Bool) (r : α) (xs : List α) :
    (replaceFirst p r xs).length = xs.length := by
  induction xs with
  | nil => rfl
  | cons x xs ih =>
    simp only [replaceFirst]
    split
    · simp
    · simp [ih]

lemma countP_replaceFirst {α : Type} (p : α → Bool) (r : α) (xs : List α)
    (hr : p r = true) :
    List.countP p (replaceFirst p r xs) = List.countP p xs := by
  induction xs with
  | nil => rfl
  | cons x xs ih =>
    simp only [replaceFirst]
    split
    · next hx => simp [List.countP_cons, hr, hx]
    · next hx => simp [List.countP_cons, ih]

lemma find?_replaceFirst_self {α : Type} (p : α → Bool) (r : α) (xs : List α)
    (hr : p r = true) (hx : (xs.find? p).isSome) :
    (replaceFirst p r xs).find? p = some r := by
  induction xs with
  | nil => simp [List.find?] at hx
  | cons x xs ih =>
    simp only [replaceFirst]
    split
    · exact List.find?_cons_of_pos _ hr
    · next hpx =>
      have hpx' : ¬p x = true := hpx
      rw [List.find?_cons_of_neg _ hpx']
      rw [List.find?_cons_of_neg _ hpx'] at hx
      exact ih hx

lemma replaceFirst_idem {α : Type} (p : α → Bool) (r : α) (xs : List α)
    (hr : p r = true) :
    replaceFirst p r (replaceFirst p r xs) = replaceFirst p r xs := by
  induction xs with
  | nil => rfl
  | cons x xs ih =>
    simp only [replaceFirst]
    split
    · next hpx =>
      simp only [replaceFirst]
      rw [if_pos hr]
    · next hpx =>
      simp only [replaceFirst]
      rw [if_neg hpx, ih]

/-! ## MatchStore: C4 and C10 -/

/-- C4: an upsert hitting an existing row by its natural key overwrites
only the optional message fields and the update attribution of that
row; the row identity (`match_id`), creation attribution, key fields and
active flag are preserved, the table size and the number of rows with
that triple are unchanged, and a second upsert with the same triple hits
the same row again — same `match_id`, the second call's `last_message`
stored. -/
theorem create_or_update_match_upsert (db : List MatchRow)
    (req req2 : MatchCreateRequest) (uid fid fid2 : Nat) (m : MatchRow)
    (hauth : req.my_id = uid) (hauth2 : req2.my_id = uid)
    (htriple : req2.my_id = req.my_id ∧ req2.partner_id = req.partner_id ∧
      req2.thread_id = req.thread_id)
    (hfind : db.find? (matchesTriple req) = some m) :
    create_or_update_match req uid db fid
      = (.updated (updatedMatchRow m req uid),
         replaceFirst (matchesTriple req) (updatedMatchRow m req uid) db) ∧
    (updatedMatchRow m req uid).match_id = m.match_id ∧
    (updatedMatchRow m req uid).created_by = m.created_by ∧
    (updatedMatchRow m req uid).my_id = m.my_id ∧
    (updatedMatchRow m req uid).partner_id = m.partner_id ∧
    (updatedMatchRow m req uid).thread_id = m.thread_id ∧
    (updatedMatchRow m req uid).active = m.active ∧
    (updatedMatchRow m req uid).last_message = req.last_message ∧
    (updatedMatchRow m req uid).last_message_date = req.last_message_date ∧
    (updatedMatchRow m req uid).sent_by = req.sent_by ∧
    (updatedMatchRow m req uid).updated_by = toString uid ∧
    (replaceFirst (matchesTriple req) (updatedMatchRow m req uid) db).length = db.length ∧
    List.countP (matchesTriple req)
        (replaceFirst (matchesTriple req) (updatedMatchRow m req uid) db)
      = List.countP (matchesTriple req) db ∧
    create_or_update_match req2 uid
        (replaceFirst (matchesTriple req) (updatedMatchRow m req uid) db) fid2
      = (.updated (updatedMatchRow (updatedMatchRow m req uid) req2 uid),
         replaceFirst (matchesTriple req2)
           (updatedMatchRow (updatedMatchRow m req uid) req2 uid)
           (replaceFirst (matchesTriple req) (updatedMatchRow m req uid) db)) ∧
    (updatedMatchRow (updatedMatchRow m req uid) req2 uid).match_id = m.match_id ∧
    (updatedMatchRow (updatedMatchRow m req uid) req2 uid).last_message
      = req2.last_message := by
  have hm : matchesTriple req m = true := List.find?_some hfind
  have hm1 : matchesTriple req (updatedMatchRow m req uid) = true := hm
  have hmt : matchesTriple req2 = matchesTriple req := by
    funext mm
    simp [matchesTriple, htriple.1, htriple.2.1, htriple.2.2]
  have hfind2 : (replaceFirst (matchesTriple req) (updatedMatchRow m req uid) db).find?
      (matchesTriple req2) = some (updatedMatchRow m req uid) := by
    rw [hmt]
    exact find?_replaceFirst_self _ _ _ hm1 (by rw [hfind]; rfl)
  refine ⟨?_, rfl, rfl, rfl, rfl, rfl, rfl, rfl, rfl, rfl, rfl,
    replaceFirst_length _ _ _, countP_replaceFirst _ _ _ hm1, ?_, rfl, rfl⟩
  · unfold create_or_update_match
    rw [if_neg (by simp [hauth]), hfind]
  · unfold create_or_update_match
    rw [if_neg (by simp [hauth2]), hfind2]

/-- Concrete first upsert request for the C4 witness. -/
def wMatchReq : MatchCreateRequest := ⟨1, 2, 3, some "hi", none, some 1⟩

/-- Concrete second upsert request for the C4 witness (same triple,
a new message). -/
def wMatchReq2 : MatchCreateRequest := ⟨1, 2, 3, some "second", none, some 1⟩

/-- Concrete stored row for the C4 and C10 witnesses. -/
def wMatchRow : MatchRow := ⟨7, 1, 2, 3, some "old", none, none, "1", "1", true⟩

/-- Witness for C4 at a one-row table. -/
theorem create_or_update_match_upsert_witness :
    create_or_update_match wMatchReq 1 [wMatchRow] 9
      = (.updated (updatedMatchRow wMatchRow wMatchReq 1),
         replaceFirst (matchesTriple wMatchReq) (updatedMatchRow wMatchRow wMatchReq 1)
           [wMatchRow]) ∧
    (updatedMatchRow wMatchRow wMatchReq 1).match_id = wMatchRow.match_id ∧
    (updatedMatchRow (updatedMatchRow wMatchRow wMatchReq 1) wMatchReq2 1).match_id
      = wMatchRow.match_id ∧
    (updatedMatchRow (updatedMatchRow wMatchRow wMatchReq 1) wMatchReq2 1).last_message
      = wMatchReq2.last_message := by
  obtain ⟨h1, h2, -, -, -, -, -, -, -, -, -, -, -, -, h3, h4⟩ :=
    create_or_update_match_upsert [wMatchRow] wMatchReq wMatchReq2 1 9 10 wMatchRow
      rfl rfl ⟨rfl, rfl, rfl⟩ (by decide)
  exact ⟨h1, h2, h3, h4⟩

/-- C10: when an update-branch upsert omits the optional fields
(`last_message`, `last_message_date`, `sent_by` all absent), the found
row's previously stored values — even non-null ones — are overwritten
with null, because the update branch assigns the request's optional
values unconditionally. -/
theorem create_or_update_match_clears_optional_fields (db : List MatchRow)
    (req : MatchCreateRequest) (uid fid : Nat) (m : MatchRow) (msg : String)
    (hauth : req.my_id = uid)
    (hfind : db.find? (matchesTriple req) = some m)
    (hstored : m.last_message = some msg)
    (homit1 : req.last_message = none) (homit2 : req.last_message_date = none)
    (homit3 : req.sent_by = none) :
    (create_or_update_match req uid db fid).1 = .updated (updatedMatchRow m req uid) ∧
    (updatedMatchRow m req uid).last_message = none ∧
    (updatedMatchRow m req uid).last_message_date = none ∧
    (updatedMatchRow m req uid).sent_by = none := by
  refine ⟨?_, homit1, homit2, homit3⟩
  unfold create_or_update_match
  rw [if_neg (by simp [hauth]), hfind]

/-- Concrete field-omitting request for the C10 witness. -/
def wMatchReqEmpty : MatchCreateRequest := ⟨1, 2, 3, none, none, none⟩

/-- Witness for C10: the stored message `"old"` is erased. -/
theorem create_or_update_match_clears_optional_fields_witness :
    (create_or_update_match wMatchReqEmpty 1 [wMatchRow] 9).1
      = .updated (updatedMatchRow wMatchRow wMatchReqEmpty 1) ∧
    (updatedMatchRow wMatchRow wMatchReqEmpty 1).last_message = none :=
  have h := create_or_update_match_clears_optional_fields [wMatchRow] wMatchReqEmpty 1 9
    wMatchRow "old" rfl (by decide) rfl rfl rfl rfl
  ⟨h.1, h.2.1⟩

/-! ## PaymentLifecycle: C5 (creation) -/

/-- C5: a created payment's `payment_date` is the current UTC time and
its `valid_until` is the month-aware addition of the plan's duration,
computed once at creation; month-aware addition clamps to the last
valid day, so 2024-01-31 plus one month is 2024-02-29 (leap year), not
2024-03-02. -/
theorem create_payment_valid_until (payment_data : PaymentCreateRequest)
    (current_user_id : Nat) (plans : List PaymentPlanRow) (now : DateTime)
    (fresh_id : Nat) (payments : List PaymentRow) (plan : PaymentPlanRow)
    (hplan : plans.find? (fun pl => pl.plan_id == payment_data.plan_id && pl.active)
      = some plan) :
    create_payment payment_data current_user_id plans now fresh_id payments
      = (.created (createdPaymentRow payment_data current_user_id plan now fresh_id),
         payments ++ [createdPaymentRow payment_data current_user_id plan now fresh_id]) ∧
    (createdPaymentRow payment_data current_user_id plan now fresh_id).payment_date = now ∧
    (createdPaymentRow payment_data current_user_id plan now fresh_id).valid_until
      = addMonths now plan.months ∧
    addMonths ⟨⟨2024, 1, 31⟩, 10, 30, 0⟩ 1 = ⟨⟨2024, 2, 29⟩, 10, 30, 0⟩ ∧
    addMonths ⟨⟨2024, 1, 31⟩, 10, 30, 0⟩ 1 ≠ ⟨⟨2024, 3, 2⟩, 10, 30, 0⟩ := by
  refine ⟨?_, rfl, rfl, by decide, by decide⟩
  unfold create_payment
  rw [hplan]

/-- Concrete active plan for the payment witnesses. -/
def wPlan : PaymentPlanRow := ⟨5, "GOLD", 100, 1, true⟩

/-- Concrete creation request for the C5 witness. -/
def wPayReq : PaymentCreateRequest := ⟨100, 5, none, none, none, none, none⟩

/-- Concrete current time for the payment witnesses. -/
def wNow : DateTime := ⟨⟨2024, 1, 31⟩, 10, 30, 0⟩

/-- Witness for C5: creating against the one-month plan on 2024-01-31
sets `valid_until` to 2024-02-29. -/
theorem create_payment_valid_until_witness :
    create_payment wPayReq 2 [wPlan] wNow 1 []
      = (.created (createdPaymentRow wPayReq 2 wPlan wNow 1),
         [createdPaymentRow wPayReq 2 wPlan wNow 1]) ∧
    (createdPaymentRow wPayReq 2 wPlan wNow 1).valid_until
      = ⟨⟨2024, 2, 29⟩, 10, 30, 0⟩ := by
  obtain ⟨h1, -, h2, h3, -⟩ :=
    create_payment_valid_until wPayReq 2 [wPlan] wNow 1 [] wPlan (by decide)
  exact ⟨h1, by rw [h2]; exact h3⟩

/-! ## PaymentLifecycle: webhook resolution helpers -/

lemma resolveStatus_ge (payment_plan : PaymentPlanRow) (amount : ℚ) (p : PaymentRow)
    (h : payment_plan.amount ≤ amount) :
    resolveStatus (some payment_plan) amount p
      = { p with transaction_status := some "SUCCESSFUL" } := by
  simp only [resolveStatus]
  rw [if_pos (ge_iff_le.mpr h)]

lemma resolveStatus_lt (payment_plan : PaymentPlanRow) (amount : ℚ) (p : PaymentRow)
    (h : amount < payment_plan.amount) :
    resolveStatus (some payment_plan) amount p
      = { p with transaction_status := some "PARTIALLY_PAID", amount := amount } := by
  simp only [resolveStatus]
  rw [if_neg (not_le.mpr h)]

/-- The normal-resolution path of the webhook handler, as one equation:
zero result code, present correlation id, matched payment and extracted
metadata give a success response, an in-place replacement of the matched
row by its resolved version, and the notification decision. -/
lemma daraja_callback_success_eq (callback_data : CallbackData)
    (payments : List PaymentRow) (plans : List PaymentPlanRow) (users : List UserRec)
    (now : DateTime) (c : String) (payment : PaymentRow) (acc : MetaAcc)
    (hrc : callback_data.stkD.resultCode = some 0)
    (hco : callback_data.stkD.checkoutRequestID = some c)
    (hcne : c ≠ "")
    (hfind : payments.find? (mpesaIdEq c) = some payment)
    (hmeta : extractMeta now callback_data.metaItems ⟨0, "", none⟩ = some acc) :
    daraja_callback callback_data payments plans users now
      = (.success payment.payment_id,
         replaceFirst (mpesaIdEq c)
           (callbackUpdatedPayment callback_data acc
             (plans.find? (planIdEq payment.plan_id)) payment)
           payments,
         notifyFlag users payment.user_id) := by
  simp only [daraja_callback]
  rw [if_neg (by simp [hrc])]
  simp only [hco, if_neg hcne, hfind, hmeta]

/-! ## PaymentLifecycle: C2 (amount-vs-plan resolution) -/

/-- C2: on a zero-result-code event matching an existing payment, the
handler replaces that payment in place; when the plan is found (active
or not), a settled amount at least the plan price yields status
`SUCCESSFUL` with the stored amount unchanged, and a smaller settled
amount yields `PARTIALLY_PAID` with the stored amount overwritten by
the settled amount; when the plan is not found, the status and amount
fields are left untouched (in particular the status stays unset). -/
theorem daraja_callback_resolution (callback_data : CallbackData)
    (payments : List PaymentRow) (plans : List PaymentPlanRow) (users : List UserRec)
    (now : DateTime) (c : String) (payment : PaymentRow) (acc : MetaAcc)
    (hrc : callback_data.stkD.resultCode = some 0)
    (hco : callback_data.stkD.checkoutRequestID = some c)
    (hcne : c ≠ "")
    (hfind : payments.find? (mpesaIdEq c) = some payment)
    (hmeta : extractMeta now callback_data.metaItems ⟨0, "", none⟩ = some acc) :
    daraja_callback callback_data payments plans users now
      = (.success payment.payment_id,
         replaceFirst (mpesaIdEq c)
           (callbackUpdatedPayment callback_data acc
             (plans.find? (planIdEq payment.plan_id)) payment)
           payments,
         notifyFlag users payment.user_id) ∧
    (∀ plan, plans.find? (planIdEq payment.plan_id) = some plan →
      (plan.amount ≤ acc.amount →
        (callbackUpdatedPayment callback_data acc (some plan) payment).transaction_status
          = some "SUCCESSFUL" ∧
        (callbackUpdatedPayment callback_data acc (some plan) payment).amount
          = payment.amount) ∧
      (acc.amount < plan.amount →
        (callbackUpdatedPayment callback_data acc (some plan) payment).transaction_status
          = some "PARTIALLY_PAID" ∧
        (callbackUpdatedPayment callback_data acc (some plan) payment).amount
          = acc.amount)) ∧
    ((callbackUpdatedPayment callback_data acc none payment).transaction_status
      = payment.transaction_status ∧
     (callbackUpdatedPayment callback_data acc none payment).amount = payment.amount) := by
  refine ⟨daraja_callback_success_eq callback_data payments plans users now c payment acc
    hrc hco hcne hfind hmeta, ?_, ⟨rfl, rfl⟩⟩
  intro plan hp
  constructor
  · intro hge
    rw [show callbackUpdatedPayment callback_data acc (some plan) payment
        = { payment with
            transaction_callback := some callback_data,
            payment_ref := some acc.mpesa_code,
            date_completed := acc.transaction_date,
            transaction_status := some "SUCCESSFUL",
            updated_by := payment.created_by }
      from by simp only [callbackUpdatedPayment]; rw [resolveStatus_ge _ _ _ hge]]
    exact ⟨rfl, rfl⟩
  · intro hlt
    rw [show callbackUpdatedPayment callback_data acc (some plan) payment
        = { payment with
            transaction_callback := some callback_data,
            payment_ref := some acc.mpesa_code,
            date_completed := acc.transaction_date,
            transaction_status := some "PARTIALLY_PAID",
            amount := acc.amount,
            updated_by := payment.created_by }
      from by simp only [callbackUpdatedPayment]; rw [resolveStatus_lt _ _ _ hlt]]
    exact ⟨rfl, rfl⟩

/-- Concrete successful event for the C2 witness: settled amount equal
to the plan price. -/
def wCb : CallbackData :=
  ⟨some ⟨some 0, none, some "co1", some [⟨some "Amount", some (.num 100)⟩]⟩⟩

/-- Concrete pending payment matched by correlation id `"co1"`. -/
def wPayment : PaymentRow :=
  ⟨1, 2, none, wNow, wNow, 100, 5, some "co1", none, none, none, none, none, "2", "2", true⟩

/-- Witness for C2: the settled amount 100 equals the plan price, so the
resolved row is `SUCCESSFUL` with the stored amount unchanged. -/
theorem daraja_callback_resolution_witness :
    daraja_callback wCb [wPayment] [wPlan] [] wNow
      = (.success wPayment.payment_id,
         replaceFirst (mpesaIdEq "co1")
           (callbackUpdatedPayment wCb ⟨100, "", none⟩
             ([wPlan].find? (planIdEq wPayment.plan_id)) wPayment)
           [wPayment],
         notifyFlag [] wPayment.user_id) ∧
    (callbackUpdatedPayment wCb ⟨100, "", none⟩ (some wPlan) wPayment).transaction_status
      = some "SUCCESSFUL" ∧
    (callbackUpdatedPayment wCb ⟨100, "", none⟩ (some wPlan) wPayment).amount
      = wPayment.amount := by
  obtain ⟨h1, h2, -⟩ :=
    daraja_callback_resolution wCb [wPayment] [wPlan] [] wNow "co1" wPayment
      ⟨100, "", none⟩ rfl rfl (by decide) (by decide) (by decide)
  exact ⟨h1, (h2 wPlan (by decide)).1 (by decide)⟩

/-! ## PaymentLifecycle: C6 (non-zero result code) -/

/-- C6: on an event whose outer result code is not zero — including an
absent code, as when the `Body` wrapper is structurally missing — the
handler acknowledges with a 200 "received" response carrying that
result code, changes no payment row, and attempts no notification. -/
theorem daraja_callback_nonzero_no_change (callback_data : CallbackData)
    (payments : List PaymentRow) (plans : List PaymentPlanRow) (users : List UserRec)
    (now : DateTime)
    (h : callback_data.stkD.resultCode ≠ some 0) :
    daraja_callback callback_data payments plans users now
      = (.received callback_data.stkD.resultCode, payments, false) := by
  simp only [daraja_callback]
  rw [if_pos h]

/-- Concrete declined event (result code 1032) and a pending payment for
the C6 witness. -/
def wCbDeclined : CallbackData :=
  ⟨some ⟨some 1032, some "Request cancelled by user", some "co1", none⟩⟩

/-- Witness for C6: a declined event and a structurally missing `Body`
both acknowledge without touching the payment table. -/
theorem daraja_callback_nonzero_no_change_witness :
    daraja_callback wCbDeclined [wPayment] [wPlan] [] wNow
      = (.received (some 1032), [wPayment], false) ∧
    daraja_callback ⟨none⟩ [wPayment] [wPlan] [] wNow
      = (.received none, [wPayment], false) :=
  ⟨daraja_callback_nonzero_no_change wCbDeclined [wPayment] [wPlan] [] wNow (by decide),
   daraja_callback_nonzero_no_change ⟨none⟩ [wPayment] [wPlan] [] wNow (by decide)⟩

/-! ## PaymentLifecycle: C9 (absent Amount defaults to zero) -/

lemma extractMeta_no_amount (now : DateTime) (items : List MetaItem) (acc : MetaAcc)
    (hnoamt : ∀ item ∈ items, item.name = some "Amount" → item.value = none)
    (hacc : acc.amount = 0) :
    ∃ acc2, extractMeta now items acc = some acc2 ∧ acc2.amount = 0 := by
  induction items generalizing acc with
  | nil => exact ⟨acc, rfl, hacc⟩
  | cons item rest ih =>
    have hstep : ∃ a2, processItem now acc item = some a2 ∧ a2.amount = 0 := by
      unfold processItem
      by_cases h1 : (item.name == some "Amount") = true
      · rw [if_pos h1]
        have hv : item.value = none := hnoamt item (by simp) (by simpa using h1)
        rw [hv]
        exact ⟨_, rfl, rfl⟩
      · rw [if_neg h1]
        by_cases h2 : (item.name == some "MpesaReceiptNumber") = true
        · rw [if_pos h2]
          exact ⟨_, rfl, hacc⟩
        · rw [if_neg h2]
          by_cases h3 : (item.name == some "TransactionDate") = true
          · rw [if_pos h3]
            by_cases h4 : jvTruthy item.value = true
            · rw [if_pos h4]
              exact ⟨_, rfl, hacc⟩
            · rw [if_neg h4]
              exact ⟨acc, rfl, hacc⟩
          · rw [if_neg h3]
            exact ⟨acc, rfl, hacc⟩
    obtain ⟨a2, hpi, h0⟩ := hstep
    obtain ⟨acc2, hrest, h02⟩ := ih a2 (fun it hit hn => hnoamt it (by simp [hit]) hn) h0
    refine ⟨acc2, ?_, h02⟩
    simp only [extractMeta, hpi]
    exact hrest

/-- C9: on a zero-result-code event matching an existing payment whose
plan exists with a positive price, an absent `Amount` metadata item (or
one with an absent `Value`) makes the settled amount default to 0, so
resolution marks the payment `PARTIALLY_PAID` and overwrites its stored
amount with 0, erasing the originally recorded amount. -/
theorem daraja_callback_missing_amount (callback_data : CallbackData)
    (payments : List PaymentRow) (plans : List PaymentPlanRow) (users : List UserRec)
    (now : DateTime) (c : String) (payment : PaymentRow) (plan : PaymentPlanRow)
    (acc : MetaAcc)
    (hrc : callback_data.stkD.resultCode = some 0)
    (hco : callback_data.stkD.checkoutRequestID = some c)
    (hcne : c ≠ "")
    (hfind : payments.find? (mpesaIdEq c) = some payment)
    (hplan : plans.find? (planIdEq payment.plan_id) = some plan)
    (hpos : 0 < plan.amount)
    (hnoamt : ∀ item ∈ callback_data.metaItems, item.name = some "Amount" →
      item.value = none)
    (hmeta : extractMeta now callback_data.metaItems ⟨0, "", none⟩ = some acc) :
    acc.amount = 0 ∧
    daraja_callback callback_data payments plans users now
      = (.success payment.payment_id,
         replaceFirst (mpesaIdEq c)
           (callbackUpdatedPayment callback_data acc
             (plans.find? (planIdEq payment.plan_id)) payment)
           payments,
         notifyFlag users payment.user_id) ∧
    (callbackUpdatedPayment callback_data acc
      (plans.find? (planIdEq payment.plan_id)) payment).transaction_status
      = some "PARTIALLY_PAID" ∧
    (callbackUpdatedPayment callback_data acc
      (plans.find? (planIdEq payment.plan_id)) payment).amount = 0 := by
  have h0 : acc.amount = 0 := by
    obtain ⟨acc2, hm2, h02⟩ := extractMeta_no_amount now callback_data.metaItems
      ⟨0, "", none⟩ hnoamt rfl
    rw [hmeta] at hm2
    rw [Option.some.inj hm2]
    exact h02
  have hlt : acc.amount < plan.amount := by rw [h0]; exact hpos
  have hcu : callbackUpdatedPayment callback_data acc (some plan) payment
      = { payment with
          transaction_callback := some callback_data,
          payment_ref := some acc.mpesa_code,
          date_completed := acc.transaction_date,
          transaction_status := some "PARTIALLY_PAID",
          amount := acc.amount,
          updated_by := payment.created_by } := by
    simp only [callbackUpdatedPayment]
    rw [resolveStatus_lt _ _ _ hlt]
  refine ⟨h0, daraja_callback_success_eq callback_data payments plans users now c payment
    acc hrc hco hcne hfind hmeta, ?_, ?_⟩
  · rw [hplan, hcu]
  · rw [hplan, hcu]
    exact h0

/-- Concrete successful event with no `Amount` metadata item (the whole
`CallbackMetadata` object is absent) for the C9 witness. -/
def wCbNoAmount : CallbackData := ⟨some ⟨some 0, none, some "co1", none⟩⟩

/-- Witness for C9: the stored amount 100 is erased to 0 and the status
becomes `PARTIALLY_PAID`. -/
theorem daraja_callback_missing_amount_witness :
    daraja_callback wCbNoAmount [wPayment] [wPlan] [] wNow
      = (.success wPayment.payment_id,
         replaceFirst (mpesaIdEq "co1")
           (callbackUpdatedPayment wCbNoAmount ⟨0, "", none⟩
             ([wPlan].find? (planIdEq wPayment.plan_id)) wPayment)
           [wPayment],
         notifyFlag [] wPayment.user_id) ∧
    (callbackUpdatedPayment wCbNoAmount ⟨0, "", none⟩
      ([wPlan].find? (planIdEq wPayment.plan_id)) wPayment).transaction_status
      = some "PARTIALLY_PAID" ∧
    (callbackUpdatedPayment wCbNoAmount ⟨0, "", none⟩
      ([wPlan].find? (planIdEq wPayment.plan_id)) wPayment).amount = 0 := by
  obtain ⟨-, h1, h2, h3⟩ :=
    daraja_callback_missing_amount wCbNoAmount [wPayment] [wPlan] [] wNow "co1"
      wPayment wPlan ⟨0, "", none⟩ rfl rfl (by decide) (by decide) (by decide)
      (by decide) (by simp [CallbackData.metaItems, CallbackData.stkD, wCbNoAmount, emptyStk])
      rfl
  exact ⟨h1, h2, h3⟩

/-! ## PaymentLifecycle: C3 (webhook replay) -/

/-- Successful event whose `TransactionDate` value does not parse, for
the C3 counterexample: `daraja_timestamp_to_datetime` then falls back to
the processing-time clock. -/
def cexReplayCb : CallbackData :=
  ⟨some ⟨some 0, none, some "co1", some [⟨some "Amount", some (.num 100)⟩,
    ⟨some "TransactionDate", some (.str "bad")⟩]⟩⟩

/-- A second processing time, one second after `wNow`. -/
def wNow2 : DateTime := ⟨⟨2024, 1, 31⟩, 10, 30, 1⟩

/-- C3 counterexample: replaying the identical successful event is not
idempotent for every event — with an unparseable `TransactionDate` the
fallback clock is stored in `date_completed`, so a redelivery at a later
clock changes the stored payment fields. -/
theorem daraja_callback_replay_cex :
    (daraja_callback cexReplayCb
        (daraja_callback cexReplayCb [wPayment] [wPlan] [] wNow).2.1
        [wPlan] [] wNow2).2.1
      ≠ (daraja_callback cexReplayCb [wPayment] [wPlan] [] wNow).2.1 := by decide

/-- A timestamp string whose Daraja parse does not depend on the
fallback clock (equivalently: it parses as a valid timestamp). -/
def tsNowFree (s : String) : Prop :=
  ∀ n1 n2 : DateTime,
    daraja_timestamp_to_datetime s n1 = daraja_timestamp_to_datetime s n2

lemma processItem_now_free (n1 n2 : DateTime) (acc : MetaAcc) (item : MetaItem)
    (hts : item.name = some "TransactionDate" → jvTruthy item.value = true →
      tsNowFree ((item.value.map jvStr).getD "")) :
    processItem n1 acc item = processItem n2 acc item := by
  unfold processItem
  by_cases h1 : (item.name == some "Amount") = true
  · rw [if_pos h1, if_pos h1]
  · rw [if_neg h1, if_neg h1]
    by_cases h2 : (item.name == some "MpesaReceiptNumber") = true
    · rw [if_pos h2, if_pos h2]
    · rw [if_neg h2, if_neg h2]
      by_cases h3 : (item.name == some "TransactionDate") = true
      · rw [if_pos h3, if_pos h3]
        by_cases h4 : jvTruthy item.value = true
        · rw [if_pos h4, if_pos h4, hts (by simpa using h3) h4 n1 n2]
        · rw [if_neg h4, if_neg h4]
      · rw [if_neg h3, if_neg h3]

lemma extractMeta_now_free (n1 n2 : DateTime) (items : List MetaItem) (acc : MetaAcc)
    (hts : ∀ item ∈ items, item.name = some "TransactionDate" →
      jvTruthy item.value = true → tsNowFree ((item.value.map jvStr).getD "")) :
    extractMeta n1 items acc = extractMeta n2 items acc := by
  induction items generalizing acc with
  | nil => rfl
  | cons item rest ih =>
    simp only [extractMeta]
    rw [processItem_now_free n1 n2 acc item (hts item (by simp))]
    cases hpi : processItem n2 acc item with
    | none => rfl
    | some acc2 => exact ih acc2 (fun it hit => hts it (by simp [hit]))

lemma callbackUpdatedPayment_frame (callback_data : CallbackData) (acc : MetaAcc)
    (plan_lookup : Option PaymentPlanRow) (p : PaymentRow) :
    (callbackUpdatedPayment callback_data acc plan_lookup p).payment_id = p.payment_id ∧
    (callbackUpdatedPayment callback_data acc plan_lookup p).user_id = p.user_id ∧
    (callbackUpdatedPayment callback_data acc plan_lookup p).plan_id = p.plan_id ∧
    (callbackUpdatedPayment callback_data acc plan_lookup p).mpesa_transaction_id
      = p.mpesa_transaction_id ∧
    (callbackUpdatedPayment callback_data acc plan_lookup p).created_by = p.created_by := by
  cases plan_lookup with
  | none => exact ⟨rfl, rfl, rfl, rfl, rfl⟩
  | some plan =>
    by_cases hge : plan.amount ≤ acc.amount
    · simp only [callbackUpdatedPayment]
      rw [resolveStatus_ge _ _ _ hge]
      exact ⟨rfl, rfl, rfl, rfl, rfl⟩
    · simp only [callbackUpdatedPayment]
      rw [resolveStatus_lt _ _ _ (not_le.mp hge)]
      exact ⟨rfl, rfl, rfl, rfl, rfl⟩

lemma callbackUpdatedPayment_idem (callback_data : CallbackData) (acc : MetaAcc)
    (plan_lookup : Option PaymentPlanRow) (p : PaymentRow) :
    callbackUpdatedPayment callback_data acc plan_lookup
        (callbackUpdatedPayment callback_data acc plan_lookup p)
      = callbackUpdatedPayment callback_data acc plan_lookup p := by
  cases plan_lookup with
  | none => rfl
  | some plan =>
    by_cases hge : plan.amount ≤ acc.amount
    · simp only [callbackUpdatedPayment]
      rw [resolveStatus_ge _ _ _ hge, resolveStatus_ge _ _ _ hge]
    · simp only [callbackUpdatedPayment]
      rw [resolveStatus_lt _ _ _ (not_le.mp hge), resolveStatus_lt _ _ _ (not_le.mp hge)]

/-- C3 (amended): replaying the identical successful event is idempotent
for every event whose `TransactionDate` metadata (when present and
truthy) parses without falling back to the clock: the second delivery
returns the same response and leaves the payment table exactly as the
first delivery left it, re-overwriting the same fields with the same
values.  (The unamended claim fails only for events storing the
processing-time fallback clock, see the counterexample.) -/
theorem daraja_callback_idempotent (callback_data : CallbackData)
    (payments : List PaymentRow) (plans : List PaymentPlanRow) (users : List UserRec)
    (n1 n2 : DateTime) (c : String) (payment : PaymentRow) (acc : MetaAcc)
    (hrc : callback_data.stkD.resultCode = some 0)
    (hco : callback_data.stkD.checkoutRequestID = some c)
    (hcne : c ≠ "")
    (hfind : payments.find? (mpesaIdEq c) = some payment)
    (hmeta : extractMeta n1 callback_data.metaItems ⟨0, "", none⟩ = some acc)
    (hts : ∀ item ∈ callback_data.metaItems, item.name = some "TransactionDate" →
      jvTruthy item.value = true → tsNowFree ((item.value.map jvStr).getD "")) :
    daraja_callback callback_data
        (daraja_callback callback_data payments plans users n1).2.1 plans users n2
      = daraja_callback callback_data payments plans users n1 := by
  have h1 := daraja_callback_success_eq callback_data payments plans users n1 c payment
    acc hrc hco hcne hfind hmeta
  have hframe := callbackUpdatedPayment_frame callback_data acc
    (plans.find? (planIdEq payment.plan_id)) payment
  have hmp : mpesaIdEq c (callbackUpdatedPayment callback_data acc
      (plans.find? (planIdEq payment.plan_id)) payment) = true := by
    have hpm : mpesaIdEq c payment = true := List.find?_some hfind
    simp only [mpesaIdEq] at hpm ⊢
    rw [hframe.2.2.2.1]
    exact hpm
  have hmeta2 : extractMeta n2 callback_data.metaItems ⟨0, "", none⟩ = some acc := by
    rw [extractMeta_now_free n2 n1 _ _ hts]
    exact hmeta
  have hfind2 : (daraja_callback callback_data payments plans users n1).2.1.find?
      (mpesaIdEq c) = some (callbackUpdatedPayment callback_data acc
        (plans.find? (planIdEq payment.plan_id)) payment) := by
    rw [h1]
    exact find?_replaceFirst_self _ _ _ hmp (by rw [hfind]; rfl)
  have h2 := daraja_callback_success_eq callback_data
    (daraja_callback callback_data payments plans users n1).2.1 plans users n2 c
    (callbackUpdatedPayment callback_data acc
      (plans.find? (planIdEq payment.plan_id)) payment) acc
    hrc hco hcne hfind2 hmeta2
  rw [h2, hframe.1, hframe.2.1, hframe.2.2.1, callbackUpdatedPayment_idem, h1,
    replaceFirst_idem _ _ _ hmp]

/-- Successful event with a parseable `TransactionDate` for the C3
witness. -/
def wCbReplayOk : CallbackData :=
  ⟨some ⟨some 0, none, some "co1", some [⟨some "Amount", some (.num 100)⟩,
    ⟨some "TransactionDate", some (.str "20240119120000")⟩]⟩⟩

/-- Witness for C3 (amended): redelivery of a well-formed event at a
later clock leaves the table unchanged. -/
theorem daraja_callback_idempotent_witness :
    daraja_callback wCbReplayOk
        (daraja_callback wCbReplayOk [wPayment] [wPlan] [] wNow).2.1 [wPlan] [] wNow2
      = daraja_callback wCbReplayOk [wPayment] [wPlan] [] wNow := by
  refine daraja_callback_idempotent wCbReplayOk [wPayment] [wPlan] [] wNow wNow2 "co1"
    wPayment ⟨100, "", some ⟨⟨2024, 1, 19⟩, 12, 0, 0⟩⟩ rfl rfl (by decide) (by decide)
    (by decide) ?_
  intro item hitem hname htruthy
  have hi : item = ⟨some "TransactionDate", some (.str "20240119120000")⟩ := by
    simp [CallbackData.metaItems, CallbackData.stkD, wCbReplayOk, emptyStk] at hitem
    rcases hitem with h | h
    · exact absurd (h ▸ hname) (by decide)
    · exact h
  subst hi
  intro na nb
  show daraja_timestamp_to_datetime "20240119120000" na
      = daraja_timestamp_to_datetime "20240119120000" nb
  have hval : ∀ n, daraja_timestamp_to_datetime "20240119120000" n
      = ⟨⟨2024, 1, 19⟩, 12, 0, 0⟩ := fun n => rfl
  rw [hval, hval]

end Venus
